import Mathlib

/-!
Verification of the GLSL sandbox cube example
(`src/examples/glsl-sandbox-cube.py`).

The script wires a Qt editor panel to a vispy canvas that renders a
spinning textured cube.  We embed its state and event handlers shallowly:

* Scalar angles (`theta`, `phi`) are Python floats incremented by the exact
  dyadic value `0.5`; we model them as rationals (`ℚ`), over which every
  increment performed by the script is exact.
* The 4x4 matrices are produced by `vispy.util.transforms`
  (`perspective`, `translate`, `rotate`), which is not part of this
  repository's sources.  Per the spec these are pure functions of their
  numeric parameters, so we represent the matrices symbolically: a matrix
  value is the tree of transform-utility calls that produced it, and two
  matrices are equal exactly when they were produced by the same calls on
  the same parameters.
* `gloo.Program` / shader compilation is likewise not part of the sources;
  it is modelled from the spec's Shader Program contract (section 4.1).
* Mesh and texture data come from `dataio` (not in the sources); they enter
  the model as parameters of the initial state.
-/

/-- Modelled from the spec: the Transform Utility (`vispy.util.transforms`,
not part of this repository's sources) "produces 4x4 matrices for
perspective projection, translation, and axis rotation given numeric
parameters".  A matrix is represented symbolically by the calls that built
it: `eye` is the 4x4 identity, `rotate m angle x y z` composes a rotation
about axis `(x, y, z)` onto `m`, `translate m dx dy dz` composes a
translation onto `m`, and `perspective fovy aspect znear zfar` is the
perspective projection matrix.  Two matrices are equal exactly when built
by the same calls with the same parameters. -/
inductive Mat4 : Type where
  | eye : Mat4
  | rotate (m : Mat4) (angle : ℚ) (x y z : ℚ) : Mat4
  | translate (m : Mat4) (dx dy dz : ℚ) : Mat4
  | perspective (fovy aspect znear zfar : ℚ) : Mat4
deriving DecidableEq, Repr

/-- The default vertex shader source `VERT_CODE` of the script. -/
def VERT_CODE : String :=
  "
uniform   mat4 u_model;
uniform   mat4 u_view;
uniform   mat4 u_projection;

attribute vec3 a_position;
attribute vec2 a_texcoord;

varying vec2 v_texcoord;

void main()
\x7b
    v_texcoord = a_texcoord;
    gl_Position = u_projection * u_view * u_model * vec4(a_position,1.0);
    //gl_Position = vec4(a_position,1.0);
\x7d
"

/-- The default fragment shader source `FRAG_CODE` of the script. -/
def FRAG_CODE : String :=
  "
uniform sampler2D u_texture;
varying vec2 v_texcoord;

void main()
\x7b
    float ty = v_texcoord.y;
    float tx = sin(ty*50.0)*0.01 + v_texcoord.x;
    gl_FragColor = texture2D(u_texture, vec2(tx, ty));
\x7d
"

/-- The cube mesh read at startup by `dataio.read_mesh('cube.obj')`:
vertex positions, triangle face indices, per-vertex normals and texture
coordinates.  The asset's concrete content is irrelevant to the claims, so
it enters the model as a parameter. -/
structure MeshData : Type where
  positions : List (ℚ × ℚ × ℚ)
  faces : List (ℕ × ℕ × ℕ)
  normals : List (ℚ × ℚ × ℚ)
  texcoords : List (ℚ × ℚ)
deriving DecidableEq, Repr

/-- Modelled from the spec: the Shader Program (`gloo.Program`, not part of
this repository's sources) "holds current vertex/fragment shader source
text", the attribute buffers bound to it (`a_position`, `a_texcoord`), and
the uniform values pushed to it (`u_texture`, `u_model`, `u_view`,
`u_projection`).  `vertSource`/`fragSource` are the sources of the active
compiled program: the last pair that compiled successfully.
`u_projection` is `none` until the first resize pushes a value. -/
structure ShaderProgram : Type where
  vertSource : String
  fragSource : String
  a_position : List (ℚ × ℚ × ℚ)
  a_texcoord : List (ℚ × ℚ)
  u_texture : List (List ℕ)
  u_model : Mat4
  u_view : Mat4
  u_projection : Option Mat4
deriving DecidableEq, Repr

/-- Modelled from the spec: the error signalled on shader compile/link
failure, "carrying the compiler's diagnostic text". -/
structure ShaderCompileError : Type where
  diagnostic : String
deriving DecidableEq, Repr

/-- The GLSL compiler of the graphics driver, abstracted: which source
pairs compile and link successfully, and the diagnostic text produced for
a failing pair.  The script delegates compilation wholesale, so the model
is parametric in this. -/
structure Compiler : Type where
  valid : String → String → Bool
  diag : String → String → String

/-- Modelled from the spec: `compile(vertex_source, fragment_source)`
"attempts to compile and link both shader stages.  On success, the new
program becomes active and subsequent draws use it; uniform/attribute
bindings established before compilation ... must be re-resolved against
the new program.  On failure, signals a `ShaderCompileError` carrying the
compiler's diagnostic text; the previously active program remains in
effect (no partial replacement)." -/
def ShaderProgram.compile (c : Compiler) (p : ShaderProgram)
    (vs fs : String) : Except ShaderCompileError ShaderProgram :=
  if c.valid vs fs then
    Except.ok { p with vertSource := vs, fragSource := fs }
  else
    Except.error ⟨c.diag vs fs⟩

/-- A draw call as issued by `self.program.draw(gl.GL_TRIANGLES,
faces_buffer)`: the sources of the active program together with the bound
attributes, uniforms and the index buffer.  Two draw calls with equal
fields render identically. -/
structure DrawCall : Type where
  vertSource : String
  fragSource : String
  a_position : List (ℚ × ℚ × ℚ)
  a_texcoord : List (ℚ × ℚ)
  u_texture : List (List ℕ)
  u_model : Mat4
  u_view : Mat4
  u_projection : Option Mat4
  faces : List (ℕ × ℕ × ℕ)
deriving DecidableEq, Repr

/-- The draw call the active program issues for a given index buffer. -/
def ShaderProgram.draw (p : ShaderProgram) (faces : List (ℕ × ℕ × ℕ)) :
    DrawCall :=
  ⟨p.vertSource, p.fragSource, p.a_position, p.a_texcoord, p.u_texture,
    p.u_model, p.u_view, p.u_projection, faces⟩

/-- The state of `Canvas`: the program it owns, the transform state
(`self.view`, `self.model`, `self.projection`, `self.theta`, `self.phi`),
the GL viewport, whether `self.update()` has requested a repaint, and the
last draw call issued by `on_paint`. -/
structure CanvasState : Type where
  program : ShaderProgram
  view : Mat4
  model : Mat4
  projection : Mat4
  theta : ℚ
  phi : ℚ
  viewport : Option (ℕ × ℕ × ℕ × ℕ)
  repaintRequested : Bool
  lastDraw : Option DrawCall
deriving DecidableEq, Repr

namespace Canvas

/-- `Canvas.init_transforms` together with the constructor's program
setup: `view`, `model`, `projection` start as the identity, `theta = 0`,
`phi = 0`, the view is translated by `(0, 0, -5)`, and `u_model`,
`u_view` are pushed to the program (`u_projection` is not set yet). -/
def init_transforms (m : MeshData) (tex : List (List ℕ)) : CanvasState :=
  let view := Mat4.translate Mat4.eye 0 0 (-5)
  { program :=
      { vertSource := VERT_CODE
        fragSource := FRAG_CODE
        a_position := m.positions
        a_texcoord := m.texcoords
        u_texture := tex
        u_model := Mat4.eye
        u_view := view
        u_projection := none }
    view := view
    model := Mat4.eye
    projection := Mat4.eye
    theta := 0
    phi := 0
    viewport := none
    repaintRequested := false
    lastDraw := none }

/-- `Canvas.update_transforms` (the timer tick handler): advance
`self.theta` and `self.phi` by `0.5` each, rebuild `self.model` from the
identity by `rotate(model, theta, 0, 0, 1)` then
`rotate(model, phi, 0, 1, 0)`, push it as `u_model`, and request a
repaint via `self.update()`. -/
def update_transforms (s : CanvasState) : CanvasState :=
  let theta := s.theta + 1/2
  let phi := s.phi + 1/2
  let model := Mat4.rotate (Mat4.rotate Mat4.eye theta 0 0 1) phi 0 1 0
  { s with
    theta := theta
    phi := phi
    model := model
    program := { s.program with u_model := model }
    repaintRequested := true }

/-- `Canvas.on_resize`: set the GL viewport to `(0, 0, width, height)`
and recompute `self.projection = perspective(45.0, width / float(height),
2.0, 10.0)`, pushing it as `u_projection`.  The division
`width / float(height)` raises `ZeroDivisionError` in Python when
`height = 0`; the model returns `none` there. -/
def on_resize (width height : ℕ) (s : CanvasState) : Option CanvasState :=
  if height = 0 then none
  else
    let proj := Mat4.perspective 45 ((width : ℚ) / (height : ℚ)) 2 10
    some { s with
      viewport := some (0, 0, width, height)
      projection := proj
      program := { s.program with u_projection := some proj } }

/-- `Canvas.on_paint`: clear the buffers and issue
`self.program.draw(gl.GL_TRIANGLES, faces_buffer)`. -/
def on_paint (faces : List (ℕ × ℕ × ℕ)) (s : CanvasState) : CanvasState :=
  { s with lastDraw := some (s.program.draw faces) }

end Canvas

/-- The state of `MainWindow`: the two editor text buffers (`vertEdit`,
`fragEdit`, initialised with the default sources), the canvas, the
module-level mesh and texture data, and the diagnostic of the last failed
compile (the reference behaviour discards it; the model records that it
was signalled). -/
structure MainWindowState : Type where
  vertEdit : String
  fragEdit : String
  canvas : CanvasState
  mesh : MeshData
  texture : List (List ℕ)
  compileError : Option String
deriving DecidableEq, Repr

namespace MainWindow

/-- `MainWindow.__init__` composed with module-level startup: the mesh is
read, the texture generated, both editors filled with the default
sources, and the canvas created with the default program. -/
def initState (m : MeshData) (tex : List (List ℕ)) : MainWindowState :=
  { vertEdit := VERT_CODE
    fragEdit := FRAG_CODE
    canvas := Canvas.init_transforms m tex
    mesh := m
    texture := tex
    compileError := none }

/-- `MainWindow.on_compile`: read both editor buffers verbatim and submit
them to the Shader Program's compile.  On success the new program becomes
active; on failure the previous program is kept and the
`ShaderCompileError` diagnostic is signalled. -/
def on_compile (c : Compiler) (mw : MainWindowState) : MainWindowState :=
  match ShaderProgram.compile c mw.canvas.program mw.vertEdit mw.fragEdit with
  | Except.ok p =>
      { mw with
        canvas := { mw.canvas with program := p }
        compileError := none }
  | Except.error e => { mw with compileError := some e.diagnostic }

end MainWindow

/-- The events the Qt event loop dispatches to the application: timer
ticks, canvas resizes, paints, edits of either text buffer, and clicks of
the Compile button. -/
inductive Event : Type where
  | tick : Event
  | resize (width height : ℕ) : Event
  | paint : Event
  | editVert (text : String) : Event
  | editFrag (text : String) : Event
  | compile : Event
deriving DecidableEq, Repr

/-- One step of the event loop.  `none` models an uncaught Python
exception (the only one reachable is `ZeroDivisionError` in
`on_resize`). -/
def step (c : Compiler) (mw : MainWindowState) :
    Event → Option MainWindowState
  | Event.tick =>
      some { mw with canvas := Canvas.update_transforms mw.canvas }
  | Event.resize w h =>
      (Canvas.on_resize w h mw.canvas).map
        (fun cv => { mw with canvas := cv })
  | Event.paint =>
      some { mw with canvas := Canvas.on_paint mw.mesh.faces mw.canvas }
  | Event.editVert t => some { mw with vertEdit := t }
  | Event.editFrag t => some { mw with fragEdit := t }
  | Event.compile => some (MainWindow.on_compile c mw)

/-- Run a sequence of events through the event loop. -/
def run (c : Compiler) : MainWindowState → List Event → Option MainWindowState
  | mw, [] => some mw
  | mw, e :: es =>
      match step c mw e with
      | some mw2 => run c mw2 es
      | none => none

/-! ### Helper lemmas -/

/-- Unfolding `MainWindow.on_compile` over the compile result. -/
theorem on_compile_eq (c : Compiler) (mw : MainWindowState) :
    MainWindow.on_compile c mw =
      if c.valid mw.vertEdit mw.fragEdit then
        { mw with
          canvas := { mw.canvas with program :=
            { mw.canvas.program with
              vertSource := mw.vertEdit
              fragSource := mw.fragEdit } }
          compileError := none }
      else { mw with compileError := some (c.diag mw.vertEdit mw.fragEdit) } := by
  by_cases hv : c.valid mw.vertEdit mw.fragEdit <;>
    simp [MainWindow.on_compile, ShaderProgram.compile, hv]

/-- Unfolding a resize step with nonzero height. -/
theorem step_resize_pos (c : Compiler) (mw : MainWindowState) (w h : ℕ)
    (hh : h ≠ 0) :
    step c mw (Event.resize w h) =
      some { mw with canvas := { mw.canvas with
        viewport := some (0, 0, w, h)
        projection := Mat4.perspective 45 ((w : ℚ) / (h : ℚ)) 2 10
        program := { mw.canvas.program with
          u_projection :=
            some (Mat4.perspective 45 ((w : ℚ) / (h : ℚ)) 2 10) } } } := by
  simp [step, Canvas.on_resize, hh]

/-! ### Concrete instances used by the witnesses -/

/-- A compiler that rejects every source pair with a fixed diagnostic. -/
def rejectAll : Compiler := ⟨fun _ _ => false, fun _ _ => "ERROR: 0:1"⟩

/-- A compiler that accepts every source pair. -/
def acceptAll : Compiler := ⟨fun _ _ => true, fun _ _ => ""⟩

/-- A tiny concrete mesh. -/
def cubeish : MeshData :=
  ⟨[(1, 1, 1)], [(0, 0, 0)], [(0, 0, 1)], [(0, 0)]⟩

/-- The application state right after startup, on the concrete mesh. -/
def w0 : MainWindowState := MainWindow.initState cubeish [[7]]

/-- `w0` after one tick. -/
def w1 : MainWindowState := { w0 with canvas := Canvas.update_transforms w0.canvas }

/-- `w0` after two ticks. -/
def w2 : MainWindowState := { w1 with canvas := Canvas.update_transforms w1.canvas }

/-! ### Claims -/

/-- C7: on every tick, both rotation angles advance by exactly the fixed
increment `0.5`, hence strictly increase. -/
theorem tick_angles_strictly_increase (s : CanvasState) :
    (Canvas.update_transforms s).theta = s.theta + 1/2 ∧
    (Canvas.update_transforms s).phi = s.phi + 1/2 ∧
    s.theta < (Canvas.update_transforms s).theta ∧
    s.phi < (Canvas.update_transforms s).phi := by
  refine ⟨rfl, rfl, ?_, ?_⟩ <;> simp [Canvas.update_transforms]

/-- C3: a tick advances `theta` and `phi` by `0.5`, recomputes the model
matrix fresh as rotation about Z (by `theta`) then about Y (by `phi`)
composed onto the identity — so it depends only on the current angle pair,
not on the previous model matrix — pushes it as `u_model`, and requests a
repaint. -/
theorem tick_advances_angles_and_recomputes_model (c : Compiler)
    (mw : MainWindowState) :
    ∃ mw2, step c mw Event.tick = some mw2 ∧
      mw2.canvas.theta = mw.canvas.theta + 1/2 ∧
      mw2.canvas.phi = mw.canvas.phi + 1/2 ∧
      mw2.canvas.model =
        Mat4.rotate (Mat4.rotate Mat4.eye mw2.canvas.theta 0 0 1)
          mw2.canvas.phi 0 1 0 ∧
      mw2.canvas.program.u_model = mw2.canvas.model ∧
      mw2.canvas.repaintRequested = true ∧
      ∀ s s' : CanvasState, s.theta = s'.theta → s.phi = s'.phi →
        (Canvas.update_transforms s).model =
          (Canvas.update_transforms s').model := by
  refine ⟨_, rfl, rfl, rfl, rfl, rfl, rfl, ?_⟩
  intro s s' ht hp
  simp [Canvas.update_transforms, ht, hp]

/-- C9: `on_resize` divides `width` by `height` with no guard; a resize
event with `height = 0` reaches a division by zero (`ZeroDivisionError`,
modelled as `none`), while any nonzero height succeeds. -/
theorem resize_zero_height_reaches_division_by_zero (c : Compiler)
    (mw : MainWindowState) (w : ℕ) :
    Canvas.on_resize w 0 mw.canvas = none ∧
    step c mw (Event.resize w 0) = none ∧
    ∀ h, h ≠ 0 → (Canvas.on_resize w h mw.canvas).isSome = true := by
  refine ⟨rfl, rfl, ?_⟩
  intro h hh
  simp [Canvas.on_resize, hh]

/-- C1: when the submitted source pair fails to compile, the compile
action signals a `ShaderCompileError` carrying the compiler's diagnostic
text, the event loop does not crash, the canvas (active program,
transforms, last draw) is left exactly as before, and every subsequent
draw call is identical to one issued before the failed attempt. -/
theorem compile_failure_preserves_active_program (c : Compiler)
    (mw : MainWindowState) (h : c.valid mw.vertEdit mw.fragEdit = false) :
    ShaderProgram.compile c mw.canvas.program mw.vertEdit mw.fragEdit =
      Except.error ⟨c.diag mw.vertEdit mw.fragEdit⟩ ∧
    ∃ mw2, step c mw Event.compile = some mw2 ∧
      mw2.canvas = mw.canvas ∧
      mw2.canvas.program = mw.canvas.program ∧
      mw2.compileError = some (c.diag mw.vertEdit mw.fragEdit) ∧
      ∀ faces, mw2.canvas.program.draw faces = mw.canvas.program.draw faces := by
  have hc : ShaderProgram.compile c mw.canvas.program mw.vertEdit mw.fragEdit =
      Except.error ⟨c.diag mw.vertEdit mw.fragEdit⟩ := by
    simp [ShaderProgram.compile, h]
  refine ⟨hc, MainWindow.on_compile c mw, rfl, ?_, ?_, ?_, ?_⟩ <;>
    simp [on_compile_eq, h]

/-- Witness for C1 at the startup state under a compiler rejecting
everything. -/
theorem compile_failure_preserves_active_program_witness :
    ShaderProgram.compile rejectAll w0.canvas.program w0.vertEdit w0.fragEdit =
      Except.error ⟨rejectAll.diag w0.vertEdit w0.fragEdit⟩ ∧
    ∃ mw2, step rejectAll w0 Event.compile = some mw2 ∧
      mw2.canvas = w0.canvas ∧
      mw2.canvas.program = w0.canvas.program ∧
      mw2.compileError = some (rejectAll.diag w0.vertEdit w0.fragEdit) ∧
      ∀ faces, mw2.canvas.program.draw faces = w0.canvas.program.draw faces :=
  compile_failure_preserves_active_program rejectAll w0 rfl

/-- C2: editing either text buffer never changes the active program, and
a successful compile makes the active program the submitted pair, so that
a subsequent paint draws with the new sources. -/
theorem active_program_tracks_last_successful_compile (c : Compiler)
    (mw : MainWindowState) (h : c.valid mw.vertEdit mw.fragEdit = true) :
    (∀ t, ∃ mw2, step c mw (Event.editVert t) = some mw2 ∧
      mw2.canvas.program = mw.canvas.program) ∧
    (∀ t, ∃ mw2, step c mw (Event.editFrag t) = some mw2 ∧
      mw2.canvas.program = mw.canvas.program) ∧
    ∃ mw2, step c mw Event.compile = some mw2 ∧
      mw2.canvas.program.vertSource = mw.vertEdit ∧
      mw2.canvas.program.fragSource = mw.fragEdit ∧
      ∀ mw3, step c mw2 Event.paint = some mw3 →
        mw3.canvas.lastDraw = some (mw2.canvas.program.draw mw2.mesh.faces) := by
  refine ⟨fun t => ⟨_, rfl, rfl⟩, fun t => ⟨_, rfl, rfl⟩,
    MainWindow.on_compile c mw, rfl, ?_, ?_, ?_⟩
  · simp [on_compile_eq, h]
  · simp [on_compile_eq, h]
  · intro mw3 h3
    injection h3 with h4
    subst h4
    rfl

/-- Witness for C2 at the startup state under a compiler accepting
everything. -/
theorem active_program_tracks_last_successful_compile_witness :
    (∀ t, ∃ mw2, step acceptAll w0 (Event.editVert t) = some mw2 ∧
      mw2.canvas.program = w0.canvas.program) ∧
    (∀ t, ∃ mw2, step acceptAll w0 (Event.editFrag t) = some mw2 ∧
      mw2.canvas.program = w0.canvas.program) ∧
    ∃ mw2, step acceptAll w0 Event.compile = some mw2 ∧
      mw2.canvas.program.vertSource = w0.vertEdit ∧
      mw2.canvas.program.fragSource = w0.fragEdit ∧
      ∀ mw3, step acceptAll mw2 Event.paint = some mw3 →
        mw3.canvas.lastDraw = some (mw2.canvas.program.draw mw2.mesh.faces) :=
  active_program_tracks_last_successful_compile acceptAll w0 rfl

/-- C6: the projection matrix produced by a resize depends only on the
aspect ratio `width / height` (and the fixed constants): any two resizes
with equal ratios — in particular two resizes to the same size — yield
identical projection matrices, from any two starting states. -/
theorem resize_projection_depends_only_on_aspect (c : Compiler)
    (mwa mwb : MainWindowState) (w1 h1 w2 h2 : ℕ)
    (hh1 : h1 ≠ 0) (hh2 : h2 ≠ 0)
    (hr : (w1 : ℚ) / (h1 : ℚ) = (w2 : ℚ) / (h2 : ℚ)) :
    ∃ s1 s2, step c mwa (Event.resize w1 h1) = some s1 ∧
      step c mwb (Event.resize w2 h2) = some s2 ∧
      s1.canvas.projection = s2.canvas.projection ∧
      s1.canvas.program.u_projection = s2.canvas.program.u_projection := by
  refine ⟨_, _, step_resize_pos c mwa w1 h1 hh1,
    step_resize_pos c mwb w2 h2 hh2, ?_, ?_⟩ <;> simp [hr]

/-- Witness for C6: resizing to 400x200 and to 200x100 (equal ratio 2)
yields the same projection matrix. -/
theorem resize_projection_depends_only_on_aspect_witness :
    ∃ s1 s2, step acceptAll w0 (Event.resize 400 200) = some s1 ∧
      step acceptAll w1 (Event.resize 200 100) = some s2 ∧
      s1.canvas.projection = s2.canvas.projection ∧
      s1.canvas.program.u_projection = s2.canvas.program.u_projection :=
  resize_projection_depends_only_on_aspect acceptAll w0 w1 400 200 200 100
    (by decide) (by decide) (by norm_num)

/-- Unfolding `run` on a cons. -/
theorem run_cons (c : Compiler) (mw : MainWindowState) (e : Event)
    (es : List Event) :
    run c mw (e :: es) = (step c mw e).bind (fun mwa => run c mwa es) := by
  cases hstep : step c mw e <;> simp [run, hstep]

/-- The mesh, texture, attribute buffers and texture uniform are left
untouched by every event. -/
theorem step_preserves_loaded_data (c : Compiler) (mw mw2 : MainWindowState)
    (e : Event) (hs : step c mw e = some mw2) :
    mw2.mesh = mw.mesh ∧ mw2.texture = mw.texture ∧
    mw2.canvas.program.a_position = mw.canvas.program.a_position ∧
    mw2.canvas.program.a_texcoord = mw.canvas.program.a_texcoord ∧
    mw2.canvas.program.u_texture = mw.canvas.program.u_texture := by
  cases e with
  | tick =>
      injection hs with h2
      subst h2
      simp [Canvas.update_transforms]
  | resize w h =>
      by_cases hh : h = 0
      · subst hh
        simp [step, Canvas.on_resize] at hs
      · rw [step_resize_pos c mw w h hh] at hs
        injection hs with h2
        subst h2
        simp
  | paint =>
      injection hs with h2
      subst h2
      simp [Canvas.on_paint]
  | editVert t =>
      injection hs with h2
      subst h2
      simp
  | editFrag t =>
      injection hs with h2
      subst h2
      simp
  | compile =>
      injection hs with h2
      subst h2
      by_cases hv : c.valid mw.vertEdit mw.fragEdit <;> simp [on_compile_eq, hv]

/-- The loaded data survives any sequence of events. -/
theorem run_preserves_loaded_data (c : Compiler) (evs : List Event) :
    ∀ mw mw2, run c mw evs = some mw2 →
      mw2.mesh = mw.mesh ∧ mw2.texture = mw.texture ∧
      mw2.canvas.program.a_position = mw.canvas.program.a_position ∧
      mw2.canvas.program.a_texcoord = mw.canvas.program.a_texcoord ∧
      mw2.canvas.program.u_texture = mw.canvas.program.u_texture := by
  induction evs with
  | nil =>
      intro mw mw2 hs
      injection hs with h2
      subst h2
      exact ⟨rfl, rfl, rfl, rfl, rfl⟩
  | cons e es ih =>
      intro mw mw2 hs
      rw [run_cons] at hs
      cases hstep : step c mw e with
      | none => rw [hstep] at hs; cases hs
      | some mwa =>
          rw [hstep] at hs
          simp only [Option.some_bind] at hs
          obtain ⟨a1, a2, a3, a4, a5⟩ := step_preserves_loaded_data c mw mwa e hstep
          obtain ⟨b1, b2, b3, b4, b5⟩ := ih mwa mw2 hs
          exact ⟨b1.trans a1, b2.trans a2, b3.trans a3, b4.trans a4, b5.trans a5⟩

/-- Shape of every projection matrix the application ever holds: the
startup identity, or a perspective matrix with the fixed constants
`fovy = 45`, `znear = 2`, `zfar = 10` and some aspect ratio. -/
def projection_wf (s : CanvasState) : Prop :=
  s.projection = Mat4.eye ∨ ∃ a, s.projection = Mat4.perspective 45 a 2 10

/-- Every event preserves `projection_wf`. -/
theorem step_preserves_projection_wf (c : Compiler)
    (mw mw2 : MainWindowState) (e : Event) (hs : step c mw e = some mw2)
    (h : projection_wf mw.canvas) : projection_wf mw2.canvas := by
  cases e with
  | tick =>
      injection hs with h2
      subst h2
      exact h
  | resize w hgt =>
      by_cases hh : hgt = 0
      · subst hh
        simp [step, Canvas.on_resize] at hs
      · rw [step_resize_pos c mw w hgt hh] at hs
        injection hs with h2
        subst h2
        exact Or.inr ⟨(w : ℚ) / (hgt : ℚ), rfl⟩
  | paint =>
      injection hs with h2
      subst h2
      exact h
  | editVert t =>
      injection hs with h2
      subst h2
      exact h
  | editFrag t =>
      injection hs with h2
      subst h2
      exact h
  | compile =>
      injection hs with h2
      subst h2
      by_cases hv : c.valid mw.vertEdit mw.fragEdit <;>
        simpa [projection_wf, on_compile_eq, hv] using h

/-- `projection_wf` survives any sequence of events. -/
theorem run_preserves_projection_wf (c : Compiler) (evs : List Event) :
    ∀ mw mw2, run c mw evs = some mw2 → projection_wf mw.canvas →
      projection_wf mw2.canvas := by
  induction evs with
  | nil =>
      intro mw mw2 hs h
      injection hs with h2
      subst h2
      exact h
  | cons e es ih =>
      intro mw mw2 hs h
      rw [run_cons] at hs
      cases hstep : step c mw e with
      | none => rw [hstep] at hs; cases hs
      | some mwa =>
          rw [hstep] at hs
          simp only [Option.some_bind] at hs
          exact ih mwa mw2 hs (step_preserves_projection_wf c mw mwa e hstep h)

/-- C5: a resize to `(w, h)` with `h ≠ 0` sets the viewport to
`(0, 0, w, h)` and recomputes the projection as a perspective matrix with
field of view 45°, aspect `w / h`, near plane 2 and far plane 10, pushing
it as `u_projection`; and in every state reachable from startup the
projection is either the initial identity or a perspective matrix with
exactly those fixed constants. -/
theorem resize_sets_viewport_and_projection (c : Compiler) (m : MeshData)
    (tex : List (List ℕ)) (mw : MainWindowState) (w h : ℕ) (hh : h ≠ 0) :
    (∃ mw2, step c mw (Event.resize w h) = some mw2 ∧
      mw2.canvas.viewport = some (0, 0, w, h) ∧
      mw2.canvas.projection = Mat4.perspective 45 ((w : ℚ) / (h : ℚ)) 2 10 ∧
      mw2.canvas.program.u_projection =
        some (Mat4.perspective 45 ((w : ℚ) / (h : ℚ)) 2 10)) ∧
    ∀ evs mw3, run c (MainWindow.initState m tex) evs = some mw3 →
      projection_wf mw3.canvas := by
  constructor
  · exact ⟨_, step_resize_pos c mw w h hh, rfl, rfl, rfl⟩
  · intro evs mw3 hs
    exact run_preserves_projection_wf c evs _ mw3 hs (Or.inl rfl)

/-- Witness for C5: resizing the startup state to 640x480. -/
theorem resize_sets_viewport_and_projection_witness :
    (∃ mw2, step acceptAll w0 (Event.resize 640 480) = some mw2 ∧
      mw2.canvas.viewport = some (0, 0, 640, 480) ∧
      mw2.canvas.projection =
        Mat4.perspective 45 ((640 : ℚ) / (480 : ℚ)) 2 10 ∧
      mw2.canvas.program.u_projection =
        some (Mat4.perspective 45 ((640 : ℚ) / (480 : ℚ)) 2 10)) ∧
    ∀ evs mw3, run acceptAll (MainWindow.initState cubeish [[7]]) evs = some mw3 →
      projection_wf mw3.canvas :=
  resize_sets_viewport_and_projection acceptAll cubeish [[7]] w0 640 480
    (by decide)

/-- C8: the mesh data and the texture image loaded at startup are never
mutated by any subsequent operation: after any sequence of events
(ticks, resizes, paints, edits, compiles) a read of them, including the
copies bound into the program, equals the initial read. -/
theorem mesh_and_texture_never_mutated (c : Compiler) (m : MeshData)
    (tex : List (List ℕ)) (evs : List Event) (s : MainWindowState)
    (hs : run c (MainWindow.initState m tex) evs = some s) :
    s.mesh = m ∧ s.texture = tex ∧
    s.canvas.program.a_position = m.positions ∧
    s.canvas.program.a_texcoord = m.texcoords ∧
    s.canvas.program.u_texture = tex := by
  have h := run_preserves_loaded_data c evs (MainWindow.initState m tex) s hs
  simpa [MainWindow.initState, Canvas.init_transforms] using h

/-- Witness for C8: after two ticks the mesh and texture read back
unchanged. -/
theorem mesh_and_texture_never_mutated_witness :
    w2.mesh = cubeish ∧ w2.texture = [[7]] ∧
    w2.canvas.program.a_position = cubeish.positions ∧
    w2.canvas.program.a_texcoord = cubeish.texcoords ∧
    w2.canvas.program.u_texture = [[7]] :=
  mesh_and_texture_never_mutated acceptAll cubeish [[7]]
    [Event.tick, Event.tick] w2 rfl

/-- Invariant behind C10: the two rotation angles agree, and the model
matrix is the startup identity or the rotation about Z then Y by that
common angle. -/
def anglesSynced (s : CanvasState) : Prop :=
  s.theta = s.phi ∧
    (s.model = Mat4.eye ∨
      s.model = Mat4.rotate (Mat4.rotate Mat4.eye s.theta 0 0 1) s.theta 0 1 0)

/-- Every event preserves `anglesSynced`. -/
theorem step_preserves_anglesSynced (c : Compiler)
    (mw mw2 : MainWindowState) (e : Event) (hs : step c mw e = some mw2)
    (h : anglesSynced mw.canvas) : anglesSynced mw2.canvas := by
  cases e with
  | tick =>
      injection hs with h2
      subst h2
      exact ⟨by simp [Canvas.update_transforms, h.1],
        Or.inr (by simp [Canvas.update_transforms, h.1])⟩
  | resize w hgt =>
      by_cases hh : hgt = 0
      · subst hh
        simp [step, Canvas.on_resize] at hs
      · rw [step_resize_pos c mw w hgt hh] at hs
        injection hs with h2
        subst h2
        exact h
  | paint =>
      injection hs with h2
      subst h2
      exact h
  | editVert t =>
      injection hs with h2
      subst h2
      exact h
  | editFrag t =>
      injection hs with h2
      subst h2
      exact h
  | compile =>
      injection hs with h2
      subst h2
      by_cases hv : c.valid mw.vertEdit mw.fragEdit <;>
        simpa [anglesSynced, on_compile_eq, hv] using h

/-- `anglesSynced` survives any sequence of events. -/
theorem run_preserves_anglesSynced (c : Compiler) (evs : List Event) :
    ∀ mw mw2, run c mw evs = some mw2 → anglesSynced mw.canvas →
      anglesSynced mw2.canvas := by
  induction evs with
  | nil =>
      intro mw mw2 hs h
      injection hs with h2
      subst h2
      exact h
  | cons e es ih =>
      intro mw mw2 hs h
      rw [run_cons] at hs
      cases hstep : step c mw e with
      | none => rw [hstep] at hs; cases hs
      | some mwa =>
          rw [hstep] at hs
          simp only [Option.some_bind] at hs
          exact ih mwa mw2 hs (step_preserves_anglesSynced c mw mwa e hstep h)

/-- C10: both angles start at 0 and every tick adds 0.5 to each, so
`theta = phi` in every reachable state, and the model matrix is always
the rotation about Z then Y by that one common angle (or the startup
identity before the first tick). -/
theorem theta_always_equals_phi (c : Compiler) (m : MeshData)
    (tex : List (List ℕ)) (evs : List Event) (s : MainWindowState)
    (hs : run c (MainWindow.initState m tex) evs = some s) :
    s.canvas.theta = s.canvas.phi ∧
    (s.canvas.model = Mat4.eye ∨
      s.canvas.model =
        Mat4.rotate (Mat4.rotate Mat4.eye s.canvas.theta 0 0 1)
          s.canvas.theta 0 1 0) :=
  run_preserves_anglesSynced c evs _ s hs ⟨rfl, Or.inl rfl⟩

/-- Witness for C10: after one tick, `theta = phi` and the model is the
rotation by the common angle. -/
theorem theta_always_equals_phi_witness :
    w1.canvas.theta = w1.canvas.phi ∧
    (w1.canvas.model = Mat4.eye ∨
      w1.canvas.model =
        Mat4.rotate (Mat4.rotate Mat4.eye w1.canvas.theta 0 0 1)
          w1.canvas.theta 0 1 0) :=
  theta_always_equals_phi acceptAll cubeish [[7]] [Event.tick] w1 rfl

/-- C4: from the freshly initialised state, ten ticks with no user
interaction leave `theta = phi = 5` (ten times the 0.5 increment), with
the active program still the unmodified default shader pair. -/
theorem ten_ticks_give_angle_five (c : Compiler) (m : MeshData)
    (tex : List (List ℕ)) :
    ∃ s, run c (MainWindow.initState m tex) (List.replicate 10 Event.tick) =
        some s ∧
      s.canvas.theta = 5 ∧ s.canvas.phi = 5 ∧
      s.canvas.program.vertSource = VERT_CODE ∧
      s.canvas.program.fragSource = FRAG_CODE := by
  refine ⟨_, rfl, ?_, ?_, rfl, rfl⟩ <;>
    norm_num [MainWindow.initState, Canvas.init_transforms,
      Canvas.update_transforms]
